import Mathlib

/-!
Verification of the aries-askar FFI store layer (`src/ffi/store.rs`) and
key types (`src/keys/types.rs`) against the natural-language specification.

The stateful FFI registries (scans, sessions, stores) are embedded as
functions from handles (naturals) to optional slots, with each FFI
operation transcribed as an explicit state-passing function returning the
new registry together with an `Except` result.  Error values carry the
error kind from the specification's stable error-code list.
-/

namespace Askar

/-- Error kinds, following the stable error-code list of the specification
(`0 Success, 1 Backend, 2 Busy, 3 Duplicate, 4 Encryption, 5 Input,
6 NotFound, 7 Unexpected, 8 Unsupported, 99 Custom`); `Success` is not an
error and is omitted. -/
inductive ErrorKind where
  | Backend
  | Busy
  | Duplicate
  | Encryption
  | Input
  | NotFound
  | Unexpected
  | Unsupported
  | Custom
  deriving DecidableEq, Repr

/-- Errors raised by the embedded operations: an error kind plus the
free-form message from the corresponding `err_msg!` call site. -/
structure AskarError where
  kind : ErrorKind
  message : String
  deriving DecidableEq, Repr

/-- Modelled from the spec: the `err_msg!` macro (in the crate's error
module, not part of the provided sources) produces an error of the named
kind when one is given, e.g. `err_msg!(Busy, "Scan handle in use")`.  When
no kind is given, the kind is taken from the specification's description
of the call site's condition: a handle missing from its registry is
`NotFound` ("missing row or handle"; "handles that outlive their registry
entry deterministically resolve to NotFound"). -/
def invalidHandleErr (which : String) : AskarError :=
  { kind := ErrorKind.NotFound, message := "Invalid " ++ which ++ " handle" }

/-- Busy error raised by `err_msg!(Busy, "Scan handle in use")` in
`ScanHandle::borrow` and `ScanHandle::remove`. -/
def scanBusyErr : AskarError :=
  { kind := ErrorKind.Busy, message := "Scan handle in use" }

/-!
## Scan handle registry (`FFI_SCANS`)

the registry is `BTreeMap<ScanHandle, Option<Scan>>`: a handle is absent
(invalid), present with `Some(scan)` (the `Created` state, scan available),
or present with `None` (the `InUse` state, scan checked out).  The scan
payload itself (`Scan<'static, Entry>`, a stream over decrypted entries)
is abstracted as a natural-number token: the registry operations never
inspect it.
-/

/-- Scan payload token standing for `Scan<'static, Entry>`; the registry
operations move it without inspecting it. -/
abbrev ScanValue := Nat

/-- Registry of scans: `None` means no entry for the handle, `some none`
means the entry exists but the scan is checked out (`InUse`), and
`some (some s)` means the scan `s` is available (`Created`). -/
abbrev ScanReg := Nat → Option (Option ScanValue)

/-- Pointwise update of a scan registry at one handle. -/
def ScanReg.set (reg : ScanReg) (h : Nat) (v : Option (Option ScanValue)) : ScanReg :=
  fun h2 => if h2 = h then v else reg h2

/-- Transcription of `ScanHandle::borrow`: look up the handle
(`err_msg!("Invalid scan handle")` when absent), then `take()` the inner
option (`err_msg!(Busy, "Scan handle in use")` when already `None`),
leaving `None` behind on success. -/
def scanBorrow (reg : ScanReg) (h : Nat) : ScanReg × Except AskarError ScanValue :=
  match reg h with
  | none => (reg, Except.error (invalidHandleErr "scan"))
  | some none => (reg, Except.error scanBusyErr)
  | some (some s) => (reg.set h (some none), Except.ok s)

/-- Transcription of `ScanHandle::release`: look up the handle
(`err_msg!("Invalid scan handle")` when absent), then `replace(value)` the
inner option, which stores `Some(value)` unconditionally. -/
def scanRelease (reg : ScanReg) (h : Nat) (v : ScanValue) :
    ScanReg × Except AskarError Unit :=
  match reg h with
  | none => (reg, Except.error (invalidHandleErr "scan"))
  | some _ => (reg.set h (some (some v)), Except.ok ())

/-- Transcription of `ScanHandle::remove`: `BTreeMap::remove` deletes the
entry whenever the handle is present (so the entry is gone even on the
`Busy` path), then the inner option is unwrapped
(`err_msg!(Busy, "Scan handle in use")` when the scan was checked out). -/
def scanRemove (reg : ScanReg) (h : Nat) : ScanReg × Except AskarError ScanValue :=
  match reg h with
  | none => (reg, Except.error (invalidHandleErr "scan"))
  | some none => (reg.set h none, Except.error scanBusyErr)
  | some (some s) => (reg.set h none, Except.ok s)

/-!
## Session handle registry (`FFI_SESSIONS`)

the registry is `BTreeMap<SessionHandle, Arc<Mutex<AnySession>>>`.  Each
in-flight operation that loaded the handle holds an extra `Arc` clone; the
slot records the number of such outstanding references.  The session
payload is abstracted to the one observable `askar_session_close`
touches: whether `commit()` has been performed.
-/

/-- Session state observable by `askar_session_close`: whether the
session's `commit()` has run. -/
structure SessionState where
  committed : Bool
  deriving DecidableEq, Repr

/-- Registry slot for a session: the session state plus the number of
outstanding `Arc` references held by in-flight operations (beyond the
registry's own reference). -/
structure SessionSlot where
  extraRefs : Nat
  sess : SessionState
  deriving DecidableEq, Repr

/-- Registry of sessions by handle. -/
abbrev SessionReg := Nat → Option SessionSlot

/-- Pointwise update of a session registry at one handle. -/
def SessionReg.set (reg : SessionReg) (h : Nat) (v : Option SessionSlot) : SessionReg :=
  fun h2 => if h2 = h then v else reg h2

/-- Modelled from the spec: `err_msg!("Error closing session: has
outstanding references")` uses the error macro's default kind (the error
module is not among the provided sources); the specification assigns
`Busy` to this condition ("Closing a session while outstanding operations
hold a reference fails with Busy"). -/
def sessionCloseBusyErr : AskarError :=
  { kind := ErrorKind.Busy, message := "Error closing session: has outstanding references" }

/-- Result of `askar_session_close`: the registry afterwards, the result
delivered to the callback, and the state of the session object after the
attempt (`none` when the handle was invalid and no session was involved). -/
structure CloseOutcome where
  registry : SessionReg
  result : Except AskarError Unit
  finalSession : Option SessionState

/-- Transcription of the `askar_session_close` body: `handle.remove()`
deletes the registry entry (error when absent); `Arc::try_unwrap` succeeds
only when no outstanding references exist, in which case `commit()` runs
when `commit != 0`; otherwise the close fails and the session object
survives unchanged in the outstanding references, with the registry entry
already gone. -/
def sessionClose (reg : SessionReg) (h : Nat) (commit : Bool) : CloseOutcome :=
  match reg h with
  | none => ⟨reg, Except.error (invalidHandleErr "session"), none⟩
  | some slot =>
    if slot.extraRefs = 0 then
      ⟨SessionReg.set reg h none, Except.ok (),
        some (if commit then { committed := true } else slot.sess)⟩
    else
      ⟨SessionReg.set reg h none, Except.error sessionCloseBusyErr, some slot.sess⟩

/-!
## Store handle registry (`FFI_STORES`)

the registry is `BTreeMap<StoreHandle, Arc<AnyStore>>`; `rekey` requires
`Arc::try_unwrap` to succeed, i.e. the registry's reference must be the
last one.  The store payload is abstracted to its wrap-key configuration,
the one thing `rekey` changes.
-/

/-- Store state observable by `askar_store_rekey`: an abstract token for
the current wrap-key configuration. -/
structure StoreState where
  wrapKey : Nat
  deriving DecidableEq, Repr

/-- Registry slot for a store: the store state plus the number of
outstanding `Arc` references beyond the registry's own. -/
structure StoreSlot where
  extraRefs : Nat
  store : StoreState
  deriving DecidableEq, Repr

/-- Registry of stores by handle. -/
abbrev StoreReg := Nat → Option StoreSlot

/-- Pointwise update of a store registry at one handle. -/
def StoreReg.set (reg : StoreReg) (h : Nat) (v : Option StoreSlot) : StoreReg :=
  fun h2 => if h2 = h then v else reg h2

/-- Modelled from the spec: `err_msg!("Cannot re-key store with multiple
references")` uses the error macro's default kind (the error module is not
among the provided sources); the specification assigns `Busy` to this
condition ("The engine must fail with Busy if the handle is shared"). -/
def rekeyBusyErr : AskarError :=
  { kind := ErrorKind.Busy, message := "Cannot re-key store with multiple references" }

/-- Transcription of the `askar_store_rekey` body: `handle.remove()` takes
the entry (error when absent); on `Arc::try_unwrap` success the store is
re-keyed and re-inserted via `handle.replace`, while on failure the same
`Arc` is re-inserted unchanged and the call errors. -/
def storeRekey (reg : StoreReg) (h : Nat) (newKey : Nat) :
    StoreReg × Except AskarError Unit :=
  match reg h with
  | none => (reg, Except.error (invalidHandleErr "store"))
  | some slot =>
    if slot.extraRefs = 0 then
      (reg.set h (some { extraRefs := 0, store := { wrapKey := newKey } }), Except.ok ())
    else
      (reg.set h (some slot), Except.error rekeyBusyErr)

/-!
## Error-path callback payloads of the async FFI operations

each `extern "C"` function in `src/ffi/store.rs` builds an
`EnsureCallback` whose `Err` arm passes a fixed payload alongside the
error code.  The enumeration below transcribes that payload for every
async operation in the file.
-/

/-- Payload delivered to an FFI completion callback alongside the error
code: a handle value, an integer, a pointer (tracked by nullness), a byte
buffer, the composite unpack result, or nothing beyond the code itself. -/
inductive CallbackPayload where
  | handleVal (v : Nat)
  | intVal (v : Int)
  | ptrVal (isNull : Bool)
  | bufVal (bytes : List Nat)
  | unpackVal (bytes : List Nat) (recipientIsNull : Bool) (senderIsNull : Bool)
  | noPayload
  deriving DecidableEq, Repr

/-- Asynchronous FFI operations of `src/ffi/store.rs` that deliver their
result through a completion callback. -/
inductive AsyncOp where
  | storeProvision
  | storeOpen
  | storeRemove
  | storeCreateProfile
  | storeGetProfileName
  | storeRemoveProfile
  | storeRekey
  | storeClose
  | scanStart
  | scanNext
  | sessionStart
  | sessionCount
  | sessionFetch
  | sessionFetchAll
  | sessionRemoveAll
  | sessionUpdate
  | sessionCreateKeypair
  | sessionFetchKeypair
  | sessionUpdateKeypair
  | sessionSignMessage
  | sessionPackMessage
  | sessionUnpackMessage
  | sessionClose
  deriving DecidableEq, Repr

/-- Payload passed in each operation's callback `Err` arm, transcribed
from the source (`StoreHandle::invalid()`, `ScanHandle::invalid()`,
`SessionHandle::invalid()` and `EntrySetHandle::invalid()` are the value
`0`: `EntrySetHandle::invalid` is `Self(0)` in the source, and the handle
types from the `new_handle_type!` macro follow the spec's "output handles
are set to an invalid sentinel (0)"). -/
def errorPayload : AsyncOp → CallbackPayload
  | AsyncOp.storeProvision => CallbackPayload.handleVal 0
  | AsyncOp.storeOpen => CallbackPayload.handleVal 0
  | AsyncOp.storeRemove => CallbackPayload.intVal 0
  | AsyncOp.storeCreateProfile => CallbackPayload.ptrVal true
  | AsyncOp.storeGetProfileName => CallbackPayload.ptrVal true
  | AsyncOp.storeRemoveProfile => CallbackPayload.intVal 0
  | AsyncOp.storeRekey => CallbackPayload.noPayload
  | AsyncOp.storeClose => CallbackPayload.noPayload
  | AsyncOp.scanStart => CallbackPayload.handleVal 0
  | AsyncOp.scanNext => CallbackPayload.handleVal 0
  | AsyncOp.sessionStart => CallbackPayload.handleVal 0
  | AsyncOp.sessionCount => CallbackPayload.intVal 0
  | AsyncOp.sessionFetch => CallbackPayload.ptrVal true
  | AsyncOp.sessionFetchAll => CallbackPayload.ptrVal true
  | AsyncOp.sessionRemoveAll => CallbackPayload.intVal 0
  | AsyncOp.sessionUpdate => CallbackPayload.noPayload
  | AsyncOp.sessionCreateKeypair => CallbackPayload.ptrVal true
  | AsyncOp.sessionFetchKeypair => CallbackPayload.ptrVal true
  | AsyncOp.sessionUpdateKeypair => CallbackPayload.noPayload
  | AsyncOp.sessionSignMessage => CallbackPayload.bufVal []
  | AsyncOp.sessionPackMessage => CallbackPayload.bufVal []
  | AsyncOp.sessionUnpackMessage => CallbackPayload.unpackVal [] true true
  | AsyncOp.sessionClose => CallbackPayload.noPayload

/-- Payload holds no live data: handles are the invalid sentinel `0`,
integers are `0`, pointers are null, byte buffers are empty, and composite
results are invalid in every component. -/
def CallbackPayload.fullyInvalid : CallbackPayload → Bool
  | CallbackPayload.handleVal v => v = 0
  | CallbackPayload.intVal v => v = 0
  | CallbackPayload.ptrVal isNull => isNull
  | CallbackPayload.bufVal bytes => bytes.isEmpty
  | CallbackPayload.unpackVal bytes rNull sNull => bytes.isEmpty && rNull && sNull
  | CallbackPayload.noPayload => true

/-!
## Key algorithms and key categories (`src/keys/types.rs`)
-/

/-- Supported key algorithms (`enum KeyAlg`): the ed25519 signature scheme
or an unrecognized algorithm carrying its name. -/
inductive KeyAlg where
  | ED25519
  | Other (other : String)
  deriving DecidableEq, Repr

/-- Transcription of `impl FromStr for KeyAlg` (error type `Infallible`,
so the function is total): `"ed25519"` maps to `ED25519`, anything else to
`Other`. -/
def KeyAlg.fromStr (s : String) : KeyAlg :=
  if s = "ed25519" then KeyAlg.ED25519 else KeyAlg.Other s

/-- Transcription of `KeyAlg::as_str`. -/
def KeyAlg.asStr : KeyAlg → String
  | KeyAlg.ED25519 => "ed25519"
  | KeyAlg.Other other => other

/-- Categories of keys (`enum KeyCategory`): public key, keypair, or an
unrecognized category carrying its name. -/
inductive KeyCategory where
  | PublicKey
  | KeyPair
  | Other (other : String)
  deriving DecidableEq, Repr

/-- Transcription of `impl FromStr for KeyCategory` (error type
`Infallible`, so the function is total). -/
def KeyCategory.fromStr (s : String) : KeyCategory :=
  if s = "public" then KeyCategory.PublicKey
  else if s = "keypair" then KeyCategory.KeyPair
  else KeyCategory.Other s

/-- Transcription of `KeyCategory::as_str`. -/
def KeyCategory.asStr : KeyCategory → String
  | KeyCategory.PublicKey => "public"
  | KeyCategory.KeyPair => "keypair"
  | KeyCategory.Other other => other

/-!
## Entry tags and key entries

`EntryTag` and the `sorted_tags` helper live in the crate's `types`
module, which is not among the provided sources; they are modelled from
the specification's data model (a tag is either encrypted `name=value` or
plaintext `~name=value`) and its requirement that tag-set comparison be
order-irrelevant.  `KeyEntry::sorted_tags` and `impl PartialEq for
KeyEntry` are transcribed from `src/keys/types.rs`.
-/

/-- Modelled from the spec: a tag is either encrypted (`name=value`) or
plaintext (`~name=value`); this mirrors the crate's `EntryTag` enum from
the missing `types` module. -/
inductive EntryTag where
  | encrypted (name : String) (value : String)
  | plaintext (name : String) (value : String)
  deriving DecidableEq, Repr

/-- Sort key for an entry tag: constructor index, then name, then value;
injective by construction. -/
def EntryTag.sortKey : EntryTag → Nat × String × String
  | EntryTag.encrypted n v => (0, n, v)
  | EntryTag.plaintext n v => (1, n, v)

/-- Lexicographic order on sort-key triples. -/
def lex3 (p q : Nat × String × String) : Prop :=
  p.1 < q.1 ∨ (p.1 = q.1 ∧ (p.2.1 < q.2.1 ∨ (p.2.1 = q.2.1 ∧ p.2.2 ≤ q.2.2)))

instance : DecidableRel lex3 := fun p q => by
  unfold lex3; infer_instance

/-- Total order used to sort tag lists: lexicographic on the sort key. -/
def tagLe (a b : EntryTag) : Prop :=
  lex3 a.sortKey b.sortKey

instance : DecidableRel tagLe := fun a b => by
  unfold tagLe; infer_instance

/-- Modelled from the spec: the crate-level `sorted_tags` helper (missing
`types` module) canonicalizes a tag list for order-irrelevant comparison:
an empty list yields `none` and a non-empty list yields its sorted form,
so that an absent tag list and an empty one denote the same (empty) tag
set. -/
def sortedTagList (tags : List EntryTag) : Option (List EntryTag) :=
  if tags.length > 0 then some (tags.insertionSort tagLe) else none

/-- Parameters defining a stored key (`struct KeyParams`); byte strings
are lists of naturals and the confidential `prv_key` (`SecretBytes`, from
the missing `types` module) is likewise a byte list. -/
structure KeyParams where
  alg : KeyAlg
  metadata : Option String
  reference : Option String
  pubKey : Option (List Nat)
  prvKey : Option (List Nat)
  deriving DecidableEq, Repr

/-- A stored key entry (`struct KeyEntry`). -/
structure KeyEntry where
  category : KeyCategory
  ident : String
  params : KeyParams
  tags : Option (List EntryTag)
  deriving Repr

/-- Canonical form of an optional tag list:
`tags.as_ref().and_then(sorted_tags)`. -/
def optSorted : Option (List EntryTag) → Option (List EntryTag)
  | none => none
  | some l => sortedTagList l

/-- Transcription of `KeyEntry::sorted_tags`:
`self.tags.as_ref().and_then(sorted_tags)`. -/
def KeyEntry.sortedTags (e : KeyEntry) : Option (List EntryTag) :=
  optSorted e.tags

/-- Transcription of `impl PartialEq for KeyEntry`: category, ident and
params compare structurally, and tag lists compare through
`sorted_tags`. -/
def keyEntryEq (a b : KeyEntry) : Bool :=
  decide (a.category = b.category) && decide (a.ident = b.ident) &&
    decide (a.params = b.params) && decide (a.sortedTags = b.sortedTags)

/-- Multiset of tags denoted by an optional tag list (`none` denotes the
empty tag set); used to state order-irrelevance of tag comparison. -/
def tagMultiset : Option (List EntryTag) → Multiset EntryTag
  | none => 0
  | some l => (l : Multiset EntryTag)

/-!
## Key material access (`KeyEntry::verkey`, `KeyEntry::private_key`)

the `VerKey`/`PrivateKey` types come from the external `indy_utils` crate
and are modelled as the key bytes paired with the algorithm tag passed to
their constructor.
-/

/-- Public key value built by `VerKey::new(pub_key, Some(ED25519))`. -/
structure VerKey where
  key : List Nat
  alg : KeyAlg
  deriving DecidableEq, Repr

/-- Private key value built by `PrivateKey::new(prv_key, Some(ED25519))`. -/
structure PrivateKey where
  key : List Nat
  alg : KeyAlg
  deriving DecidableEq, Repr

/-- Transcription of `KeyEntry::verkey`: match on `(alg, pub_key)` in
source order: `(ED25519, Some(k))` succeeds; `(_, None)` is an `Input`
error ("Undefined public key"); everything else is `Unsupported`. -/
def KeyEntry.verkey (e : KeyEntry) : Except AskarError VerKey :=
  match e.params.alg, e.params.pubKey with
  | KeyAlg.ED25519, some k => Except.ok { key := k, alg := KeyAlg.ED25519 }
  | _, none => Except.error { kind := ErrorKind.Input, message := "Undefined public key" }
  | _, _ => Except.error { kind := ErrorKind.Unsupported, message := "Unsupported key algorithm" }

/-- Transcription of `KeyEntry::private_key`: match on `(alg, prv_key)` in
source order: `(ED25519, Some(k))` succeeds; `(_, None)` is an `Input`
error ("Undefined private key"); everything else is `Unsupported`. -/
def KeyEntry.privateKey (e : KeyEntry) : Except AskarError PrivateKey :=
  match e.params.alg, e.params.prvKey with
  | KeyAlg.ED25519, some k => Except.ok { key := k, alg := KeyAlg.ED25519 }
  | _, none => Except.error { kind := ErrorKind.Input, message := "Undefined private key" }
  | _, _ => Except.error { kind := ErrorKind.Unsupported, message := "Unsupported key algorithm" }

/-!
## Pass-key carrier (`struct PassKey<'a>(Option<Cow<'a, str>>)`)

the `Cow` borrowed/owned distinction is a memory-management detail; the
logical state is an optional string.
-/

/-- Pass-key carrier: an optional confidential string
(`PassKey(Option<Cow<str>>)`). -/
structure PassKey where
  inner : Option String
  deriving DecidableEq, Repr

/-- Transcription of `impl From<Option<&str>> for PassKey`. -/
def PassKey.fromOpt (s : Option String) : PassKey := { inner := s }

/-- Transcription of `impl From<&str> for PassKey` (and `From<String>`):
wraps the string in `Some`. -/
def PassKey.fromStr (s : String) : PassKey := { inner := some s }

/-- Transcription of `impl Default for PassKey`: the `None` state. -/
def PassKey.default : PassKey := { inner := none }

/-- Transcription of `PassKey::is_none`. -/
def PassKey.isNone (p : PassKey) : Bool := p.inner.isNone

/-- Transcription of `impl Deref for PassKey`: `None` dereferences to the
empty string, `Some(s)` to `s`. -/
def PassKey.deref (p : PassKey) : String :=
  match p.inner with
  | none => ""
  | some s => s

/-- Transcription of `impl PartialEq for PassKey`:
`&**self == &**other`, i.e. equality of the dereferenced strings. -/
def passKeyEq (a b : PassKey) : Bool := a.deref = b.deref

/-!
## Expiry handling at the FFI boundary (`askar_session_update`)
-/

/-- Transcription of the `expiry_ms` normalization in
`askar_session_update`: a negative argument becomes `None` (no expiry),
zero or positive is passed through as `Some(expiry_ms)`. -/
def updateExpiry (expiryMs : Int) : Option Int :=
  if expiryMs < 0 then none else some expiryMs

/-!
## Concrete fixtures for evaluating the embedded operations
-/

/-- Scan registry with handle 1 available (`Created`, payload 5) and
handle 2 checked out (`InUse`). -/
def scanReg0 : ScanReg :=
  fun h => if h = 1 then some (some 5) else if h = 2 then some none else none

/-- Session registry with handle 1 held by one outstanding operation and
not committed. -/
def sessionReg0 : SessionReg :=
  fun h => if h = 1 then some { extraRefs := 1, sess := { committed := false } } else none

/-- Store registry with handle 1 shared (two outstanding references) and
handle 3 exclusively owned, both with wrap key 10. -/
def storeReg0 : StoreReg :=
  fun h =>
    if h = 1 then some { extraRefs := 2, store := { wrapKey := 10 } }
    else if h = 3 then some { extraRefs := 0, store := { wrapKey := 10 } }
    else none

/-- Key params shared by the key-entry fixtures. -/
def kParams0 : KeyParams :=
  { alg := KeyAlg.ED25519, metadata := some "m", reference := none,
    pubKey := some [1, 2], prvKey := none }

/-- Key entry with two tags in one order. -/
def kEntry1 : KeyEntry :=
  { category := KeyCategory.KeyPair, ident := "k1", params := kParams0,
    tags := some [EntryTag.plaintext "b" "2", EntryTag.encrypted "a" "1"] }

/-- Key entry like `kEntry1` with the same tags in the other order. -/
def kEntry2 : KeyEntry :=
  { category := KeyCategory.KeyPair, ident := "k1", params := kParams0,
    tags := some [EntryTag.encrypted "a" "1", EntryTag.plaintext "b" "2"] }

/-- Key entry like `kEntry1` with a different tag multiset. -/
def kEntry3 : KeyEntry :=
  { category := KeyCategory.KeyPair, ident := "k1", params := kParams0,
    tags := some [EntryTag.encrypted "a" "1"] }

/-- Key entry with a non-ed25519 algorithm and no key bytes. -/
def nonEdNoKeyEntry : KeyEntry :=
  { category := KeyCategory.KeyPair, ident := "k2",
    params := { alg := KeyAlg.Other "secp256k1", metadata := none, reference := none,
                pubKey := none, prvKey := none },
    tags := none }

/-- Key entry with a non-ed25519 algorithm and key bytes present. -/
def nonEdWithKeyEntry : KeyEntry :=
  { category := KeyCategory.KeyPair, ident := "k3",
    params := { alg := KeyAlg.Other "secp256k1", metadata := none, reference := none,
                pubKey := some [3, 4], prvKey := some [5, 6] },
    tags := none }

/-- Key entry with the ed25519 algorithm and key bytes present. -/
def edEntry : KeyEntry :=
  { category := KeyCategory.KeyPair, ident := "k4",
    params := { alg := KeyAlg.ED25519, metadata := none, reference := none,
                pubKey := some [7], prvKey := some [8] },
    tags := none }

/-!
## Helper lemmas: the tag order is total, transitive and antisymmetric
-/

theorem lex3_total (p q : Nat × String × String) : lex3 p q ∨ lex3 q p := by
  obtain ⟨p1, p2, p3⟩ := p
  obtain ⟨q1, q2, q3⟩ := q
  rcases lt_trichotomy p1 q1 with h | h | h
  · exact Or.inl (Or.inl h)
  · rcases lt_trichotomy p2 q2 with h2 | h2 | h2
    · exact Or.inl (Or.inr ⟨h, Or.inl h2⟩)
    · rcases le_total p3 q3 with h3 | h3
      · exact Or.inl (Or.inr ⟨h, Or.inr ⟨h2, h3⟩⟩)
      · exact Or.inr (Or.inr ⟨h.symm, Or.inr ⟨h2.symm, h3⟩⟩)
    · exact Or.inr (Or.inr ⟨h.symm, Or.inl h2⟩)
  · exact Or.inr (Or.inl h)

theorem lex3_trans (p q r : Nat × String × String) :
    lex3 p q → lex3 q r → lex3 p r := by
  obtain ⟨p1, p2, p3⟩ := p
  obtain ⟨q1, q2, q3⟩ := q
  obtain ⟨r1, r2, r3⟩ := r
  rintro (h1 | ⟨e1, h1⟩) (h2 | ⟨e2, h2⟩)
  · exact Or.inl (lt_trans h1 h2)
  · exact Or.inl (e2 ▸ h1)
  · exact Or.inl (e1 ▸ h2)
  · refine Or.inr ⟨e1.trans e2, ?_⟩
    rcases h1 with h1 | ⟨f1, h1⟩ <;> rcases h2 with h2 | ⟨f2, h2⟩
    · exact Or.inl (lt_trans h1 h2)
    · exact Or.inl (f2 ▸ h1)
    · exact Or.inl (f1 ▸ h2)
    · exact Or.inr ⟨f1.trans f2, le_trans h1 h2⟩

theorem lex3_antisymm (p q : Nat × String × String) :
    lex3 p q → lex3 q p → p = q := by
  obtain ⟨p1, p2, p3⟩ := p
  obtain ⟨q1, q2, q3⟩ := q
  unfold lex3
  dsimp only
  rintro (h1 | ⟨e1, h1⟩) (h2 | ⟨e2, h2⟩)
  · exact absurd (lt_trans h1 h2) (lt_irrefl p1)
  · exact absurd h1 (e2 ▸ lt_irrefl q1)
  · exact absurd h2 (e1 ▸ lt_irrefl p1)
  · subst e1
    rcases h1 with h1 | ⟨f1, h1⟩ <;> rcases h2 with h2 | ⟨f2, h2⟩
    · exact absurd (lt_trans h1 h2) (lt_irrefl p2)
    · exact absurd h1 (f2 ▸ lt_irrefl q2)
    · exact absurd h2 (f1 ▸ lt_irrefl p2)
    · subst f1
      have e3 : p3 = q3 := le_antisymm h1 h2
      rw [e3]

theorem sortKey_inj (a b : EntryTag) : a.sortKey = b.sortKey → a = b := by
  cases a <;> cases b <;> simp [EntryTag.sortKey]

instance : IsTotal EntryTag tagLe :=
  ⟨fun a b => lex3_total a.sortKey b.sortKey⟩

instance : IsTrans EntryTag tagLe :=
  ⟨fun a b c => lex3_trans a.sortKey b.sortKey c.sortKey⟩

instance : IsAntisymm EntryTag tagLe :=
  ⟨fun a b h1 h2 => sortKey_inj a b (lex3_antisymm a.sortKey b.sortKey h1 h2)⟩

theorem sortedTagList_eq_iff_perm (l1 l2 : List EntryTag) :
    sortedTagList l1 = sortedTagList l2 ↔ l1.Perm l2 := by
  constructor
  · intro h
    unfold sortedTagList at h
    by_cases h1 : l1.length > 0 <;> by_cases h2 : l2.length > 0 <;>
      simp only [h1, h2, if_pos, if_neg, Option.some.injEq, reduceCtorEq] at h
    · exact ((List.perm_insertionSort tagLe l1).symm.trans (h ▸ List.perm_insertionSort tagLe l2))
    · exact absurd h (by simp)
    · exact absurd h (by simp)
    · have e1 : l1 = [] := List.length_eq_zero.mp (by omega)
      have e2 : l2 = [] := List.length_eq_zero.mp (by omega)
      rw [e1, e2]
  · intro hp
    unfold sortedTagList
    have hlen := hp.length_eq
    by_cases h1 : l1.length > 0
    · rw [if_pos h1, if_pos (hlen ▸ h1)]
      exact congrArg some (List.eq_of_perm_of_sorted
        ((List.perm_insertionSort tagLe l1).trans
          (hp.trans (List.perm_insertionSort tagLe l2).symm))
        (List.sorted_insertionSort tagLe l1) (List.sorted_insertionSort tagLe l2))
    · rw [if_neg h1, if_neg (by omega)]

theorem sortedTagList_eq_none_iff (l : List EntryTag) :
    sortedTagList l = none ↔ l = [] := by
  unfold sortedTagList
  by_cases h : l.length > 0
  · rw [if_pos h]
    constructor
    · intro hh
      exact absurd hh (by simp)
    · intro e
      rw [e] at h
      simp at h
  · rw [if_neg h]
    have e : l = [] := List.length_eq_zero.mp (by omega)
    simp [e]

theorem optSortedTags_eq_iff (t1 t2 : Option (List EntryTag)) :
    optSorted t1 = optSorted t2 ↔ tagMultiset t1 = tagMultiset t2 := by
  cases t1 with
  | none =>
    cases t2 with
    | none => simp
    | some l =>
      simp only [optSorted, tagMultiset]
      constructor
      · intro h
        have hl : l = [] := (sortedTagList_eq_none_iff l).mp h.symm
        subst hl
        rfl
      · intro h
        have hl : l = [] := (Multiset.coe_eq_zero l).mp h.symm
        subst hl
        rfl
  | some l1 =>
    cases t2 with
    | none =>
      simp only [optSorted, tagMultiset]
      constructor
      · intro h
        have hl : l1 = [] := (sortedTagList_eq_none_iff l1).mp h
        subst hl
        rfl
      · intro h
        have hl : l1 = [] := (Multiset.coe_eq_zero l1).mp h
        subst hl
        rfl
    | some l2 =>
      simp only [optSorted, tagMultiset]
      rw [sortedTagList_eq_iff_perm]
      exact (Multiset.coe_eq_coe).symm

/-!
## Claim theorems
-/

/-- C9: parsing of key algorithms and key categories is total (both
`from_str` functions are written here as total functions, mirroring the
`Infallible` error type of the source `FromStr` impls) and print-faithful:
for every string `s`, `as_str` of the parsed value equals `s` exactly, so
parse-then-print is the identity on strings. -/
theorem keyalg_keycategory_parse_print_id (s : String) :
    (KeyAlg.fromStr s).asStr = s ∧ (KeyCategory.fromStr s).asStr = s := by
  constructor
  · unfold KeyAlg.fromStr KeyAlg.asStr
    by_cases h : s = "ed25519" <;> simp [h]
  · unfold KeyCategory.fromStr KeyCategory.asStr
    by_cases h1 : s = "public"
    · simp [h1]
    · by_cases h2 : s = "keypair" <;> simp [h1, h2]

/-- C10: at the FFI boundary, a negative `expiry_ms` argument to
`askar_session_update` is interpreted as no expiry, while zero or positive
values are passed through as the expiry in milliseconds. -/
theorem update_expiry_negative_is_none (e : Int) :
    (e < 0 → updateExpiry e = none) ∧ (0 ≤ e → updateExpiry e = some e) := by
  constructor
  · intro h
    unfold updateExpiry
    rw [if_pos h]
  · intro h
    unfold updateExpiry
    rw [if_neg (by omega)]

/-- Witness for C10 at concrete inputs `-5`, `0` and `7`. -/
theorem update_expiry_negative_is_none_witness :
    updateExpiry (-5) = none ∧ updateExpiry 0 = some 0 ∧ updateExpiry 7 = some 7 :=
  ⟨(update_expiry_negative_is_none (-5)).1 (by decide),
   (update_expiry_negative_is_none 0).2 (by decide),
   (update_expiry_negative_is_none 7).2 (by decide)⟩

/-- C4: for every asynchronous FFI operation that completes with an error,
the payload delivered to the callback is fully invalid rather than
partially populated: handle-valued results are the invalid sentinel 0,
integer results are 0, byte-buffer results are empty, pointer-valued
results are null, and the composite unpack result is invalid in every
component. -/
theorem async_error_payload_fully_invalid (op : AsyncOp) :
    (errorPayload op).fullyInvalid = true := by
  cases op <;> rfl

/-- C7 counterexample: the pass-key equality relation does not distinguish
an absent pass-key from an empty-string pass-key: `PassKey::from(None)`
and `PassKey::from("")` compare equal under `PartialEq` even though their
internal states differ. -/
theorem passkey_eq_empty_counterexample :
    passKeyEq (PassKey.fromOpt none) (PassKey.fromStr "") = true ∧
      PassKey.fromOpt none ≠ PassKey.fromStr "" := by
  constructor
  · rfl
  · intro h
    exact Option.noConfusion (congrArg PassKey.inner h)

/-- C7 amended: an absent pass-key (`PassKey::from(None)`, also the
default) is a distinct internal state from an empty-string pass-key and is
distinguishable by `is_none`; the `PartialEq` equality relation, which
compares the dereferenced strings, does not distinguish them. -/
theorem passkey_none_distinct_state :
    (PassKey.fromOpt none).isNone = true ∧
      PassKey.default.isNone = true ∧
      (PassKey.fromStr "").isNone = false ∧
      passKeyEq (PassKey.fromOpt none) (PassKey.fromStr "") = true :=
  ⟨rfl, rfl, rfl, rfl⟩

/-- C6 counterexample: a key entry whose algorithm is not ed25519 and
whose public key bytes are absent fails `verkey` with an `Input` error
("Undefined public key"), not an `Unsupported` error as the claim states
for every non-ed25519 entry. -/
theorem verkey_non_ed25519_input_counterexample :
    nonEdNoKeyEntry.params.alg ≠ KeyAlg.ED25519 ∧
      nonEdNoKeyEntry.verkey =
        Except.error { kind := ErrorKind.Input, message := "Undefined public key" } ∧
      nonEdNoKeyEntry.privateKey =
        Except.error { kind := ErrorKind.Input, message := "Undefined private key" } ∧
      ErrorKind.Input ≠ ErrorKind.Unsupported := by
  refine ⟨by decide, rfl, rfl, by decide⟩

/-- C6 amended: for a key entry whose algorithm is not ed25519, `verkey`
and `private_key` fail with `Unsupported` when the corresponding key bytes
are present and with an `Input` error when they are absent; for an ed25519
entry with the corresponding key bytes present, the access succeeds. -/
theorem key_access_ed25519_only (e : KeyEntry) :
    (e.params.alg ≠ KeyAlg.ED25519 →
      (∀ k, e.params.pubKey = some k →
        e.verkey = Except.error
          { kind := ErrorKind.Unsupported, message := "Unsupported key algorithm" }) ∧
      (∀ k, e.params.prvKey = some k →
        e.privateKey = Except.error
          { kind := ErrorKind.Unsupported, message := "Unsupported key algorithm" }) ∧
      (e.params.pubKey = none →
        e.verkey = Except.error
          { kind := ErrorKind.Input, message := "Undefined public key" }) ∧
      (e.params.prvKey = none →
        e.privateKey = Except.error
          { kind := ErrorKind.Input, message := "Undefined private key" })) ∧
    (e.params.alg = KeyAlg.ED25519 →
      (∀ k, e.params.pubKey = some k →
        e.verkey = Except.ok { key := k, alg := KeyAlg.ED25519 }) ∧
      (∀ k, e.params.prvKey = some k →
        e.privateKey = Except.ok { key := k, alg := KeyAlg.ED25519 })) := by
  constructor
  · intro halg
    refine ⟨fun k hk => ?_, fun k hk => ?_, fun hk => ?_, fun hk => ?_⟩ <;>
      [skip; skip; skip; skip] <;>
      first
      | (unfold KeyEntry.verkey
         cases ha : e.params.alg with
         | ED25519 => exact absurd ha halg
         | Other o => rw [ha] at *; rw [hk])
      | (unfold KeyEntry.privateKey
         cases ha : e.params.alg with
         | ED25519 => exact absurd ha halg
         | Other o => rw [ha] at *; rw [hk])
  · intro halg
    refine ⟨fun k hk => ?_, fun k hk => ?_⟩
    · unfold KeyEntry.verkey
      rw [halg, hk]
    · unfold KeyEntry.privateKey
      rw [halg, hk]

/-- C1: scan handles are exclusively checked out: a borrow on an `InUse`
handle fails with `Busy`; a borrow on a `Created` handle succeeds and
transitions it to `InUse`; a release on a valid handle returns the scan
state, after which a borrow succeeds again. -/
theorem scan_handles_exclusive (reg : ScanReg) (h : Nat) :
    (reg h = some none → scanBorrow reg h = (reg, Except.error scanBusyErr)) ∧
    (∀ s, reg h = some (some s) →
      scanBorrow reg h = (ScanReg.set reg h (some none), Except.ok s) ∧
      (ScanReg.set reg h (some none)) h = some none) ∧
    (∀ s v, reg h = some v →
      scanRelease reg h s = (ScanReg.set reg h (some (some s)), Except.ok ()) ∧
      scanBorrow (ScanReg.set reg h (some (some s))) h =
        (ScanReg.set (ScanReg.set reg h (some (some s))) h (some none), Except.ok s)) := by
  refine ⟨fun hb => ?_, fun s hc => ⟨?_, by simp [ScanReg.set]⟩, fun s v hv => ⟨?_, ?_⟩⟩
  · unfold scanBorrow
    rw [hb]
  · unfold scanBorrow
    rw [hc]
  · unfold scanRelease
    rw [hv]
  · have hx : (ScanReg.set reg h (some (some s))) h = some (some s) := by
      simp [ScanReg.set]
    unfold scanBorrow
    rw [hx]

/-- Witness for C1 on the concrete registry `scanReg0`: handle 2 is
`InUse` so its borrow is `Busy`; handle 1 is `Created` so its borrow
yields the scan, and after a release the borrow succeeds again. -/
theorem scan_handles_exclusive_witness :
    scanBorrow scanReg0 2 = (scanReg0, Except.error scanBusyErr) ∧
    scanBorrow scanReg0 1 = (ScanReg.set scanReg0 1 (some none), Except.ok 5) ∧
    scanRelease scanReg0 1 7 = (ScanReg.set scanReg0 1 (some (some 7)), Except.ok ()) ∧
    scanBorrow (ScanReg.set scanReg0 1 (some (some 7))) 1 =
      (ScanReg.set (ScanReg.set scanReg0 1 (some (some 7))) 1 (some none), Except.ok 7) :=
  ⟨(scan_handles_exclusive scanReg0 2).1 rfl,
   ((scan_handles_exclusive scanReg0 1).2.1 5 rfl).1,
   ((scan_handles_exclusive scanReg0 1).2.2 7 (some 5) rfl).1,
   ((scan_handles_exclusive scanReg0 1).2.2 7 (some 5) rfl).2⟩

/-- C8: removing a scan handle while the scan is borrowed (`InUse`) both
returns a `Busy` error and deletes the registry entry; after such a failed
remove, a release or borrow on that handle fails with the invalid-handle
error, so the borrowed scan state can never be returned to the
registry. -/
theorem scan_remove_busy_deletes (reg : ScanReg) (h : Nat) (hb : reg h = some none) :
    scanRemove reg h = (ScanReg.set reg h none, Except.error scanBusyErr) ∧
    (ScanReg.set reg h none) h = none ∧
    (∀ v, scanRelease (ScanReg.set reg h none) h v =
      (ScanReg.set reg h none, Except.error (invalidHandleErr "scan"))) ∧
    scanBorrow (ScanReg.set reg h none) h =
      (ScanReg.set reg h none, Except.error (invalidHandleErr "scan")) := by
  have hx : (ScanReg.set reg h none) h = none := by simp [ScanReg.set]
  refine ⟨?_, hx, fun v => ?_, ?_⟩
  · unfold scanRemove
    rw [hb]
  · unfold scanRelease
    rw [hx]
  · unfold scanBorrow
    rw [hx]

/-- Witness for C8 on the concrete registry `scanReg0` at the `InUse`
handle 2: the remove is `Busy` yet deletes the entry, and the subsequent
release and borrow report an invalid handle. -/
theorem scan_remove_busy_deletes_witness :
    scanRemove scanReg0 2 = (ScanReg.set scanReg0 2 none, Except.error scanBusyErr) ∧
    (ScanReg.set scanReg0 2 none) 2 = none ∧
    scanRelease (ScanReg.set scanReg0 2 none) 2 9 =
      (ScanReg.set scanReg0 2 none, Except.error (invalidHandleErr "scan")) ∧
    scanBorrow (ScanReg.set scanReg0 2 none) 2 =
      (ScanReg.set scanReg0 2 none, Except.error (invalidHandleErr "scan")) :=
  ⟨(scan_remove_busy_deletes scanReg0 2 rfl).1,
   (scan_remove_busy_deletes scanReg0 2 rfl).2.1,
   (scan_remove_busy_deletes scanReg0 2 rfl).2.2.1 9,
   (scan_remove_busy_deletes scanReg0 2 rfl).2.2.2⟩

/-- C3: re-key requires last-reference ownership of the store handle: when
other references to the store exist the operation fails with a `Busy`
error and the registry is unchanged; when the invoking reference is the
last one the rotation proceeds and the new wrap key is installed. -/
theorem store_rekey_last_reference (reg : StoreReg) (h : Nat) (slot : StoreSlot)
    (newKey : Nat) (hs : reg h = some slot) :
    (0 < slot.extraRefs →
      storeRekey reg h newKey =
        (StoreReg.set reg h (some slot), Except.error rekeyBusyErr) ∧
      ∀ h2, (StoreReg.set reg h (some slot)) h2 = reg h2) ∧
    (slot.extraRefs = 0 →
      storeRekey reg h newKey =
        (StoreReg.set reg h (some { extraRefs := 0, store := { wrapKey := newKey } }),
          Except.ok ()) ∧
      (StoreReg.set reg h (some { extraRefs := 0, store := { wrapKey := newKey } })) h =
        some { extraRefs := 0, store := { wrapKey := newKey } }) := by
  constructor
  · intro hpos
    have hni : ¬ slot.extraRefs = 0 := by omega
    constructor
    · simp only [storeRekey, hs, if_neg hni]
    · intro h2
      unfold StoreReg.set
      by_cases e : h2 = h
      · rw [if_pos e, e, hs]
      · rw [if_neg e]
  · intro hz
    refine ⟨?_, by simp [StoreReg.set]⟩
    simp only [storeRekey, hs, if_pos hz]

/-- Witness for C3 on the concrete registry `storeReg0`: handle 1 is
shared (two outstanding references) so re-key is `Busy` and the registry
is unchanged at handle 1; handle 3 is exclusively owned so re-key installs
the new wrap key 99. -/
theorem store_rekey_last_reference_witness :
    storeRekey storeReg0 1 99 =
      (StoreReg.set storeReg0 1 (some { extraRefs := 2, store := { wrapKey := 10 } }),
        Except.error rekeyBusyErr) ∧
    (StoreReg.set storeReg0 1 (some { extraRefs := 2, store := { wrapKey := 10 } })) 1 =
      storeReg0 1 ∧
    storeRekey storeReg0 3 99 =
      (StoreReg.set storeReg0 3 (some { extraRefs := 0, store := { wrapKey := 99 } }),
        Except.ok ()) :=
  ⟨((store_rekey_last_reference storeReg0 1
      { extraRefs := 2, store := { wrapKey := 10 } } 99 rfl).1 (by decide)).1,
   ((store_rekey_last_reference storeReg0 1
      { extraRefs := 2, store := { wrapKey := 10 } } 99 rfl).1 (by decide)).2 1,
   ((store_rekey_last_reference storeReg0 3
      { extraRefs := 0, store := { wrapKey := 10 } } 99 rfl).2 rfl).1⟩

/-- C2 counterexample: on a session with one outstanding reference,
`askar_session_close(commit=true)` fails with the `Busy` error and does
not commit, but the failing close deletes the registry entry: afterwards
the registry no longer resolves the handle and a subsequent close reports
an invalid handle, contradicting the claim that the session's state is not
torn down by the failing close. -/
theorem session_close_teardown_counterexample :
    (sessionClose sessionReg0 1 true).result = Except.error sessionCloseBusyErr ∧
    (sessionClose sessionReg0 1 true).finalSession = some { committed := false } ∧
    (sessionClose sessionReg0 1 true).registry 1 = none ∧
    (sessionClose (sessionClose sessionReg0 1 true).registry 1 true).result =
      Except.error (invalidHandleErr "session") :=
  ⟨rfl, rfl, rfl, rfl⟩

/-- C2 amended: closing a session (with commit true or false) while
outstanding operations hold a reference fails with the `Busy` error and
the session is not committed by the failing close; however the failing
close does remove the session's registry entry, so the handle is
invalidated and a subsequent close reports an invalid handle. -/
theorem session_close_busy_not_committed (reg : SessionReg) (h : Nat)
    (slot : SessionSlot) (commit : Bool) (hs : reg h = some slot)
    (hrefs : 0 < slot.extraRefs) :
    (sessionClose reg h commit).result = Except.error sessionCloseBusyErr ∧
    (sessionClose reg h commit).finalSession = some slot.sess ∧
    (sessionClose reg h commit).registry h = none ∧
    (sessionClose (sessionClose reg h commit).registry h commit).result =
      Except.error (invalidHandleErr "session") := by
  have hni : ¬ slot.extraRefs = 0 := by omega
  have hx : (SessionReg.set reg h none) h = none := by simp [SessionReg.set]
  simp only [sessionClose, hs, if_neg hni, hx]
  exact ⟨trivial, trivial, trivial, trivial⟩

/-- Witness for C2's amended theorem on the concrete registry
`sessionReg0` with one outstanding reference and `commit=false`. -/
theorem session_close_busy_not_committed_witness :
    (sessionClose sessionReg0 1 false).result = Except.error sessionCloseBusyErr ∧
    (sessionClose sessionReg0 1 false).finalSession = some { committed := false } ∧
    (sessionClose sessionReg0 1 false).registry 1 = none ∧
    (sessionClose (sessionClose sessionReg0 1 false).registry 1 false).result =
      Except.error (invalidHandleErr "session") :=
  ⟨(session_close_busy_not_committed sessionReg0 1
      { extraRefs := 1, sess := { committed := false } } false rfl (by decide)).1,
   (session_close_busy_not_committed sessionReg0 1
      { extraRefs := 1, sess := { committed := false } } false rfl (by decide)).2.1,
   (session_close_busy_not_committed sessionReg0 1
      { extraRefs := 1, sess := { committed := false } } false rfl (by decide)).2.2.1,
   (session_close_busy_not_committed sessionReg0 1
      { extraRefs := 1, sess := { committed := false } } false rfl (by decide)).2.2.2⟩

/-- C5: equality of fetched key entries treats the tag set as
order-irrelevant: for two `KeyEntry` values with equal category, ident and
params, the entries compare equal exactly when their tag multisets agree;
in particular permuted tag lists compare equal and differing tag multisets
compare unequal. -/
theorem key_entry_eq_tag_multiset (a b : KeyEntry)
    (hc : a.category = b.category) (hi : a.ident = b.ident)
    (hp : a.params = b.params) :
    keyEntryEq a b = true ↔ tagMultiset a.tags = tagMultiset b.tags := by
  have h1 : decide (a.category = b.category) = true := decide_eq_true hc
  have h2 : decide (a.ident = b.ident) = true := decide_eq_true hi
  have h3 : decide (a.params = b.params) = true := decide_eq_true hp
  unfold keyEntryEq
  rw [h1, h2, h3]
  simp only [Bool.true_and]
  rw [decide_eq_true_eq]
  unfold KeyEntry.sortedTags
  exact optSortedTags_eq_iff a.tags b.tags

/-- Witness for C5: `kEntry1` and `kEntry2` carry the same two tags in
opposite orders and compare equal; `kEntry3` has a different tag multiset
and compares unequal. -/
theorem key_entry_eq_tag_multiset_witness :
    keyEntryEq kEntry1 kEntry2 = true ∧
    tagMultiset kEntry1.tags ≠ tagMultiset kEntry3.tags ∧
    keyEntryEq kEntry1 kEntry3 ≠ true :=
  ⟨(key_entry_eq_tag_multiset kEntry1 kEntry2 rfl rfl rfl).mpr (by decide),
   by decide,
   fun hh => (by decide : ¬ tagMultiset kEntry1.tags = tagMultiset kEntry3.tags)
     ((key_entry_eq_tag_multiset kEntry1 kEntry3 rfl rfl rfl).mp hh)⟩

/-- Witness for C6's amended theorem at concrete entries: a secp256k1
entry with key bytes present fails both accessors with `Unsupported`, the
same algorithm with bytes absent fails with `Input`, and an ed25519 entry
with bytes present succeeds. -/
theorem key_access_ed25519_only_witness :
    nonEdWithKeyEntry.verkey = Except.error
      { kind := ErrorKind.Unsupported, message := "Unsupported key algorithm" } ∧
    nonEdWithKeyEntry.privateKey = Except.error
      { kind := ErrorKind.Unsupported, message := "Unsupported key algorithm" } ∧
    nonEdNoKeyEntry.verkey = Except.error
      { kind := ErrorKind.Input, message := "Undefined public key" } ∧
    edEntry.verkey = Except.ok { key := [7], alg := KeyAlg.ED25519 } ∧
    edEntry.privateKey = Except.ok { key := [8], alg := KeyAlg.ED25519 } :=
  ⟨((key_access_ed25519_only nonEdWithKeyEntry).1 (by decide)).1 [3, 4] rfl,
   ((key_access_ed25519_only nonEdWithKeyEntry).1 (by decide)).2.1 [5, 6] rfl,
   ((key_access_ed25519_only nonEdNoKeyEntry).1 (by decide)).2.2.1 rfl,
   ((key_access_ed25519_only edEntry).2 rfl).1 [7] rfl,
   ((key_access_ed25519_only edEntry).2 rfl).2 [8] rfl⟩

end Askar
